import Mathlib

/-!
Verification of the namespace-tree code emitter
(`src/atproto/codegen/namespaces/generator.py`).

The generator walks a namespace tree (nested dicts of namespace nodes with
leaf lists of method/record descriptors) and emits Python source text for a
blocking (`sync`) and a suspending (`async`) client, one class per namespace
node and one method per RPC definition.

Definitions are shallow embeddings of the source functions, keeping the
source's names.  Helpers imported by the generator from modules that are not
part of the analysed sources (`codegen` utilities, `codegen.models.generator`
model-name helpers, `lexicon.models`, the namespace builder's descriptor
types) are modelled from the specification and marked as such in their doc
comments.
-/

/-! ### Lexicon data model

Modelled from the spec: the lexicon schema layer (`lexicon.models`) is an
external collaborator; a definition exposes
`{identifier, type, parameters, input, output}`, and a shape is
`None | ObjectShape(fields, required) | RefShape(target)`. -/

/-- Modelled from the spec: definition kind tag
`enum{query, procedure, record, other}`. -/
inductive LexDefinitionType where
  | query
  | procedure
  | record
  | other
deriving DecidableEq, Repr

/-- Modelled from the spec: a structured object shape; the generator only
inspects its set of required field names. -/
structure LexObject where
  required : Option (List String)
deriving DecidableEq, Repr

/-- Modelled from the spec: a schema is a structured object shape or a
reference to another named shape. -/
inductive LexSchema where
  | object (obj : LexObject)
  | ref (target : String)
deriving DecidableEq, Repr

/-- Modelled from the spec: an input/output carrier holding an optional
schema (`input.schema` / `output.schema`). -/
structure LexXrpcBody where
  schema : Option LexSchema
deriving DecidableEq, Repr

/-- Modelled from the spec: one lexicon definition.  The source's
`isinstance(defn, LexXrpcProcedure)` test coincides with the kind tag being
`procedure`. -/
structure LexDefinition where
  type : LexDefinitionType
  parameters : Option LexObject
  input : Option LexXrpcBody
  output : Option LexXrpcBody
deriving DecidableEq, Repr

/-- Modelled from the spec: method descriptor
`{identifier (nsid), local_name (name), definition}` produced by the
namespace-tree builder. -/
structure MethodInfo where
  name : String
  nsid : String
  definition : LexDefinition
deriving DecidableEq, Repr

/-- Modelled from the spec: record descriptor; the emitter only uses its
local name. -/
structure RecordInfo where
  name : String
  nsid : String
deriving DecidableEq, Repr

/-- A leaf entry of the namespace tree: a method or a record descriptor. -/
inductive NodeInfo where
  | method (mi : MethodInfo)
  | record (ri : RecordInfo)
deriving DecidableEq, Repr

/-- A namespace-tree node: either an intermediate node (the Python `dict`
from child-segment name to sub-node, in insertion order) or a leaf node (the
Python `list` of descriptors). -/
inductive NamespaceNode where
  | dict (children : List (String × NamespaceNode))
  | leaf (entries : List NodeInfo)

/-! ### Helpers from the `codegen` utility module (not among the analysed
sources), modelled from the spec. -/

/-- Python's `str.capitalize`: first character uppercased, all remaining
characters lowercased.  Used by the source via `path_part.capitalize()`. -/
def pyCapitalize (s : String) : String :=
  match s.data with
  | [] => ""
  | c :: cs => String.mk (c.toUpper :: cs.map Char.toLower)

/-- Modelled from the spec: `sort_dict_by_key` returns the dict's entries
sorted alphabetically by key (a stable sort, like Python's `sorted`). -/
def sort_dict_by_key {α : Type} (d : List (String × α)) : List (String × α) :=
  d.mergeSort (fun a b => decide (a.1 ≤ b.1))

/-- Modelled from the spec: `join_code` joins emitted lines with newlines. -/
def join_code (lines : List String) : String :=
  String.intercalate "\n" lines

/-- Modelled from the spec: `get_code_intent` produces the indentation for
the given nesting level (four spaces per level). -/
def get_code_intent (level : Nat) : String :=
  String.mk (List.replicate (4 * level) ' ')

/-- Modelled from the spec: `get_sync_async_keywords` yields the
definition/call keywords for the blocking and suspending conventions. -/
def get_sync_async_keywords (sync : Bool) : String × String :=
  if sync then ("", "") else ("async ", "await ")

/-- Modelled from the spec: case conversion from the compact mixed-case
convention to the segmented lower-case convention. -/
def convert_camel_case_to_snake_case (s : String) : String :=
  String.mk (s.data.map (fun c =>
    if c.isUpper then ['_', c.toLower] else [c])).flatten

/-- Modelled from the spec: deterministic parameter-shape model name derived
from the method's local name (`codegen.models.generator`). -/
def get_params_model_name (method_name : String) : String :=
  pyCapitalize method_name ++ "Params"

/-- Modelled from the spec: deterministic input-shape model name. -/
def get_data_model_name (method_name : String) : String :=
  pyCapitalize method_name ++ "Data"

/-- Modelled from the spec: deterministic options-shape model name. -/
def get_options_model_name (method_name : String) : String :=
  pyCapitalize method_name ++ "Options"

/-- Modelled from the spec: deterministic output-shape model name. -/
def get_response_model_name (method_name : String) : String :=
  pyCapitalize method_name ++ "Response"

/-! ### The generator itself (`codegen/namespaces/generator.py`). -/

def NAMESPACE_SUFFIX : String := "Namespace"

def RECORD_SUFFIX : String := "RecordNamespace"

/-- `get_namespace_name`: display name of a namespace class. -/
def get_namespace_name (path_part : String) : String :=
  pyCapitalize path_part ++ NAMESPACE_SUFFIX

/-- `get_record_name`: display name of a record-namespace class. -/
def get_record_name (path_part : String) : String :=
  pyCapitalize path_part ++ RECORD_SUFFIX

/-- `_get_namespace_imports`. -/
def namespace_imports : String :=
  join_code
    [ "from dataclasses " ++ "import dataclass"
    , "from typing " ++ "import Optional, Union"
    , ""
    , "from xrpc_client " ++ "import models"
    , "from xrpc_client.models " ++ "import get_or_create_model, get_response_model"
    , "from xrpc_client.namespaces.base " ++ "import DefaultNamespace, NamespaceBase" ]

/-- `_get_namespace_class_def`. -/
def namespace_class_def (name : String) : String :=
  join_code ["@dataclass", "class " ++ get_namespace_name name ++ "(NamespaceBase):"]

/-- One line of `_get_sub_namespaces_block`. -/
def sub_namespace_field_line (sub_namespace : String) : String :=
  get_code_intent 1 ++ sub_namespace ++ ": \x27" ++ get_namespace_name sub_namespace
    ++ "\x27 = DefaultNamespace()"

/-- `_get_sub_namespaces_block`: one placeholder field declaration per child
of the node, sorted by key. -/
def sub_namespaces_block (sub_namespaces : List (String × NamespaceNode)) : String :=
  join_code ((sort_dict_by_key sub_namespaces).map (fun p => sub_namespace_field_line p.1))

/-- One assignment line of `_get_post_init_method`. -/
def post_init_assign_line (sub_namespace : String) : String :=
  get_code_intent 2 ++ "self." ++ sub_namespace ++ " = "
    ++ get_namespace_name sub_namespace ++ "(self._client)"

/-- `_get_post_init_method`: the construction-completion routine backfilling
every child field, sorted by key. -/
def post_init_method (sub_namespaces : List (String × NamespaceNode)) : String :=
  join_code ((get_code_intent 1 ++ "def __post_init__(self):")
    :: (sort_dict_by_key sub_namespaces).map (fun p => post_init_assign_line p.1))

/-! ### Method emitter. -/

/-- `is_optional_arg` (local helper in `_get_namespace_method_signature_args`):
a shape yields an optional argument iff its set of required field names is
absent or empty. -/
def is_optional_arg (lex_obj : LexObject) : Bool :=
  match lex_obj.required with
  | none => true
  | some l => l.isEmpty

/-- `is_optional_arg` as the source applies it to a raw input schema
(`is_optional = is_optional_arg(schema)`, evaluated before the
`isinstance(schema, LexObject)` test): the attribute lookup `.required`
succeeds on an object shape, while the spec-modelled `RefShape{target}`
declares no `required` field, so on a type-reference the lookup itself fails
with an attribute error — before the source's later `ValueError` raise can
be reached. -/
def is_optional_arg_schema (schema : LexSchema) : Except String Bool :=
  match schema with
  | LexSchema.object obj => Except.ok (is_optional_arg obj)
  | LexSchema.ref _ =>
      Except.error "AttributeError: ref shape has no attribute required"

/-- `_get_namespace_method_signature_arg`: renders one `params`/`data`
argument.  `alias_` renders the exact canonical alias annotation with no
default; otherwise the annotation is the union with a loose `dict`, wrapped
in `Optional` with default `None` when `optional` holds. -/
def namespace_method_signature_arg (name : String) (method_name : String)
    (get_model_name : String → String) (optional : Bool) (alias_ : Bool) : String :=
  let model_name := get_model_name method_name
  if alias_ then
    name ++ ": \x27models." ++ model_name ++ "\x27"
  else
    let type_hint := "Union[dict, \x27models." ++ model_name ++ "\x27]"
    let type_hint := if optional then "Optional[" ++ type_hint ++ "]" else type_hint
    let default_value := if optional then " = None" else ""
    name ++ ": " ++ type_hint ++ default_value

/-- `_get_namespace_method_signature_args_names`: the set of logical argument
names present in the method's signature (`self`, and markers for a `params`
argument and for the schema/alias flavours of the `data` argument). -/
def namespace_method_signature_args_names (mi : MethodInfo) : List String :=
  let args := ["self"]
  let args := if mi.definition.parameters.isSome then args ++ ["params"] else args
  match mi.definition.type, mi.definition.input with
  | LexDefinitionType.procedure, some inp =>
      if inp.schema.isSome then args ++ ["data_schema"] else args ++ ["data_alias"]
  | _, _ => args

/-- `_get_namespace_method_signature_args`, split into the two groups the
source accumulates: `args` (required, starting with `self`) and
`optional_args`.  When a procedure input declares a schema, the source first
evaluates `is_optional_arg(schema)` and only then tests
`isinstance(schema, LexObject)`; for a schema that is not a structured
object the attribute lookup inside `is_optional_arg` fails first, so the
subsequent `raise ValueError (Bad type ...)` branch is unreachable for the
spec-modelled type-reference shape. -/
def namespace_method_signature_args_lists (mi : MethodInfo) :
    Except String (List String × List String) :=
  let name := mi.name
  let acc : List String × List String := (["self"], [])
  let acc :=
    match mi.definition.parameters with
    | some params =>
        let is_optional := is_optional_arg params
        let arg := namespace_method_signature_arg "params" name get_params_model_name
          is_optional false
        if is_optional then (acc.1, acc.2 ++ [arg]) else (acc.1 ++ [arg], acc.2)
    | none => acc
  match mi.definition.type, mi.definition.input with
  | LexDefinitionType.procedure, some inp =>
      match inp.schema with
      | some schema =>
          match is_optional_arg_schema schema with
          | Except.error e => Except.error e
          | Except.ok is_optional =>
              match schema with
              | LexSchema.object _ =>
                  let arg := namespace_method_signature_arg "data" name get_data_model_name
                    is_optional false
                  if is_optional then Except.ok (acc.1, acc.2 ++ [arg])
                  else Except.ok (acc.1 ++ [arg], acc.2)
              | LexSchema.ref _ =>
                  -- the source's raise; never reached for a ref schema, whose
                  -- required-attribute lookup above has already failed
                  Except.error "Bad type LexRefVariant"
      | none =>
          let arg := namespace_method_signature_arg "data" name get_data_model_name
            false true
          Except.ok (acc.1 ++ [arg], acc.2)
  | _, _ => Except.ok acc

/-- `_get_namespace_method_signature_args`: the final comma-joined parameter
list, required group first, then the optional group. -/
def namespace_method_signature_args (mi : MethodInfo) : Except String String :=
  match namespace_method_signature_args_lists mi with
  | Except.ok acc => Except.ok (String.intercalate ", " (acc.1 ++ acc.2))
  | Except.error e => Except.error e

/-- `_get_namespace_method_return_type`: `int` when the definition has no
output; otherwise the canonical response-model name, with a `Ref` suffix when
the output schema is itself a named type-reference. -/
def namespace_method_return_type (mi : MethodInfo) : String :=
  let model_name_suffix :=
    match mi.definition.output with
    | some out =>
        match out.schema with
        | some (LexSchema.ref _) => "Ref"
        | _ => ""
    | none => ""
  match mi.definition.output with
  | some _ => "models." ++ get_response_model_name mi.name ++ model_name_suffix
  | none => "int"

/-- The normalization line `name = get_or_create_model(name, models.Model)`
emitted by `_get_namespace_method_body`'s local `_override_arg_line`. -/
def override_arg_line (name : String) (model_name : String) : String :=
  get_code_intent 2 ++ name ++ " = get_or_create_model(" ++ name ++ ", models."
    ++ model_name ++ ")"

/-- The `invoke_args` list built by `_get_namespace_method_body`: the quoted
fully-qualified identifier, then the keyword argument chosen by the source's
`if`/`elif` chain over the signature's argument names. -/
def namespace_method_invoke_args (mi : MethodInfo) : List String :=
  let presented_args := (namespace_method_signature_args_names mi).erase "self"
  let first := "\x27" ++ mi.nsid ++ "\x27"
  if presented_args.contains "params" then [first, "params=params"]
  else if presented_args.contains "data_schema" then [first, "data=data"]
  else if presented_args.contains "data_alias" then [first, "data=data"]
  else if presented_args.contains "options" then [first, "options=options"]
  else [first]

/-- The normalization lines emitted by `_get_namespace_method_body` before
the invoke line (one per the same `if`/`elif` chain; the alias flavour of
`data` gets none). -/
def namespace_method_override_lines (mi : MethodInfo) : List String :=
  let presented_args := (namespace_method_signature_args_names mi).erase "self"
  if presented_args.contains "params" then
    [override_arg_line "params" (get_params_model_name mi.name)]
  else if presented_args.contains "data_schema" then
    [override_arg_line "data" (get_data_model_name mi.name)]
  else if presented_args.contains "data_alias" then []
  else if presented_args.contains "options" then
    [override_arg_line "options" (get_options_model_name mi.name)]
  else []

/-- The underlying client entry point chosen by `_get_namespace_method_body`:
`invoke_procedure` for procedure-kind definitions, `invoke_query` otherwise. -/
def namespace_method_invoke_name (mi : MethodInfo) : String :=
  if mi.definition.type = LexDefinitionType.procedure then "invoke_procedure"
  else "invoke_query"

/-- `_get_namespace_method_body`: normalization lines, the client invocation,
and the conversion of the raw response into the declared return shape. -/
def namespace_method_body (mi : MethodInfo) (sync : Bool) : String :=
  let c := (get_sync_async_keywords sync).2
  let invoke_args_str := String.intercalate ", " (namespace_method_invoke_args mi)
  let lines := namespace_method_override_lines mi
    ++ [get_code_intent 2 ++ "response = " ++ c ++ "self._client."
          ++ namespace_method_invoke_name mi ++ "(" ++ invoke_args_str ++ ")"]
    ++ [get_code_intent 2 ++ "return get_response_model(response, "
          ++ namespace_method_return_type mi ++ ")"]
  join_code lines

/-- `_get_namespace_method_signature`. -/
def namespace_method_signature (mi : MethodInfo) (sync : Bool) : Except String String :=
  let d := (get_sync_async_keywords sync).1
  match namespace_method_signature_args mi with
  | Except.ok args =>
      Except.ok (get_code_intent 1 ++ d ++ "def " ++ convert_camel_case_to_snake_case mi.name
        ++ "(" ++ args ++ ") -> " ++ namespace_method_return_type mi ++ ":")
  | Except.error e => Except.error e

/-- The in-source sort `methods_info.sort(key=lambda e: e.name)` (stable,
alphabetical by local name). -/
def sort_methods (methods : List MethodInfo) : List MethodInfo :=
  methods.mergeSort (fun a b => decide (a.name ≤ b.name))

/-- The two lines (signature, body) emitted per method. -/
def namespace_method_lines (mi : MethodInfo) (sync : Bool) : Except String (List String) :=
  match namespace_method_signature mi sync with
  | Except.ok sig => Except.ok [sig, namespace_method_body mi sync]
  | Except.error e => Except.error e

/-- The loop body of `_get_namespace_methods_block` over an already-sorted
list of methods; the first malformed method aborts the block. -/
def namespace_methods_lines (methods : List MethodInfo) (sync : Bool) :
    Except String (List String) :=
  match methods with
  | [] => Except.ok []
  | mi :: rest =>
      match namespace_method_lines mi sync with
      | Except.ok ls =>
          match namespace_methods_lines rest sync with
          | Except.ok more => Except.ok (ls ++ more)
          | Except.error e => Except.error e
      | Except.error e => Except.error e

/-- `_get_namespace_methods_block`. -/
def namespace_methods_block (methods : List MethodInfo) (sync : Bool) :
    Except String String :=
  match namespace_methods_lines (sort_methods methods) sync with
  | Except.ok ls => Except.ok (join_code ls)
  | Except.error e => Except.error e

/-- The in-source sort `records_info.sort(key=lambda e: e.name)`. -/
def sort_records (records : List RecordInfo) : List RecordInfo :=
  records.mergeSort (fun a b => decide (a.name ≤ b.name))

/-- `_get_namespace_records_block`. -/
def namespace_records_block (records : List RecordInfo) : String :=
  join_code ((sort_records records).map (fun ri =>
    get_code_intent 1 ++ ri.name ++ ": \x27" ++ get_record_name ri.name
      ++ "\x27 = DefaultNamespace()"))

/-- The record descriptors of a leaf node, in order
(`[info for info in sub_node if isinstance(info, RecordInfo)]`). -/
def leaf_records (entries : List NodeInfo) : List RecordInfo :=
  entries.filterMap (fun e =>
    match e with
    | NodeInfo.record ri => some ri
    | NodeInfo.method _ => none)

/-- The method descriptors of a leaf node, in order
(`[info for info in sub_node if isinstance(info, MethodInfo)]`). -/
def leaf_methods (entries : List NodeInfo) : List MethodInfo :=
  entries.filterMap (fun e =>
    match e with
    | NodeInfo.method mi => some mi
    | NodeInfo.record _ => none)

/-! ### Tree walk (`_generate_namespace_in_output`) and driver. -/

mutual

/-- The blocks `_generate_namespace_in_output` appends for one
`(node_name, sub_node)` item: for an intermediate node the class definition,
field declarations and `__post_init__`, followed by the recursive walk; for a
leaf node the class definition, record fields and methods block. -/
def generate_entry (node_name : String) (sub_node : NamespaceNode) (sync : Bool) :
    Except String (List String) :=
  match sub_node with
  | NamespaceNode.dict children =>
      match generate_tree children sync with
      | Except.ok sub =>
          Except.ok ([namespace_class_def node_name, sub_namespaces_block children,
            post_init_method children] ++ sub)
      | Except.error e => Except.error e
  | NamespaceNode.leaf entries =>
      match namespace_methods_block (leaf_methods entries) sync with
      | Except.ok mb =>
          Except.ok [namespace_class_def node_name,
            namespace_records_block (leaf_records entries), mb]
      | Except.error e => Except.error e

/-- `_generate_namespace_in_output`: iterate the node's items in insertion
order, appending each item's blocks; an error in any item aborts the walk. -/
def generate_tree (namespace_tree : List (String × NamespaceNode)) (sync : Bool) :
    Except String (List String) :=
  match namespace_tree with
  | [] => Except.ok []
  | (node_name, sub_node) :: rest =>
      match generate_entry node_name sub_node sync with
      | Except.ok head =>
          match generate_tree rest sync with
          | Except.ok tail => Except.ok (head ++ tail)
          | Except.error e => Except.error e
      | Except.error e => Except.error e

end

/-- `generate_namespaces`, up to the excluded file writing and external
formatting: the sync pass runs first; its generated text is the imports block
followed by the walk's buffer, and likewise for the async pass. -/
def generate_namespaces_code (namespace_tree : List (String × NamespaceNode)) :
    Except String (String × String) :=
  match generate_tree namespace_tree true with
  | Except.ok sync_buffer =>
      match generate_tree namespace_tree false with
      | Except.ok async_buffer =>
          Except.ok (join_code (namespace_imports :: sync_buffer),
            join_code (namespace_imports :: async_buffer))
      | Except.error e => Except.error e
  | Except.error e => Except.error e

mutual

/-- All method descriptors reachable in a node (used to state error
propagation through the walk). -/
def node_methods (node : NamespaceNode) : List MethodInfo :=
  match node with
  | NamespaceNode.dict children => tree_methods children
  | NamespaceNode.leaf entries => leaf_methods entries

/-- All method descriptors reachable in a tree. -/
def tree_methods (namespace_tree : List (String × NamespaceNode)) : List MethodInfo :=
  match namespace_tree with
  | [] => []
  | (_, sub_node) :: rest => node_methods sub_node ++ tree_methods rest

end

/-- A procedure-kind definition whose declared input schema is present but is
not a structured object (the malformed-schema condition of the spec). -/
def method_has_bad_input_schema (mi : MethodInfo) : Prop :=
  mi.definition.type = LexDefinitionType.procedure ∧
  ∃ inp target, mi.definition.input = some inp ∧ inp.schema = some (LexSchema.ref target)

unseal List.merge List.mergeSort

/-! ### Helper lemmas about the alphabetical sorts. -/

lemma mergeSort_key_perm {α : Type} (key : α → String) (l : List α) :
    List.Perm (l.mergeSort (fun a b => decide (key a ≤ key b))) l :=
  List.mergeSort_perm l _

lemma mergeSort_key_pairwise {α : Type} (key : α → String) (l : List α) :
    (l.mergeSort (fun a b => decide (key a ≤ key b))).Pairwise
      (fun a b => key a ≤ key b) := by
  have h := @List.sorted_mergeSort α (fun a b : α => decide (key a ≤ key b))
    (fun a b c hab hbc => by
      simp only [decide_eq_true_eq] at *
      exact le_trans hab hbc)
    (fun a b => by
      simp only [Bool.or_eq_true, decide_eq_true_eq]
      exact le_total (key a) (key b))
    l
  exact h.imp (fun hab => by simpa using hab)

lemma mergeSort_key_pairwise_lt {α : Type} (key : α → String) (l : List α)
    (hn : (l.map key).Nodup) :
    (l.mergeSort (fun a b => decide (key a ≤ key b))).Pairwise
      (fun a b => key a < key b) := by
  have hns : ((l.mergeSort (fun a b => decide (key a ≤ key b))).map key).Nodup :=
    (((mergeSort_key_perm key l).map key).nodup_iff).mpr hn
  have hne := List.pairwise_map.mp hns
  exact ((mergeSort_key_pairwise key l).and hne).imp
    (fun hab => lt_of_le_of_ne hab.1 hab.2)

lemma mergeSort_key_eq_of_perm {α : Type} (key : α → String) {l₁ l₂ : List α}
    (hp : List.Perm l₁ l₂) (hn : (l₁.map key).Nodup) :
    l₁.mergeSort (fun a b => decide (key a ≤ key b)) =
      l₂.mergeSort (fun a b => decide (key a ≤ key b)) := by
  haveI : IsAntisymm α (fun a b => key a < key b) :=
    ⟨fun a b h1 h2 => absurd h1 (lt_asymm h2)⟩
  have hn₂ : (l₂.map key).Nodup := ((hp.map key).nodup_iff).mp hn
  exact List.eq_of_perm_of_sorted
    ((mergeSort_key_perm key l₁).trans (hp.trans (mergeSort_key_perm key l₂).symm))
    (mergeSort_key_pairwise_lt key l₁ hn)
    (mergeSort_key_pairwise_lt key l₂ hn₂)

lemma sort_dict_by_key_eq_mergeSort_key {α : Type} (d : List (String × α)) :
    sort_dict_by_key d = d.mergeSort (fun a b => decide (Prod.fst a ≤ Prod.fst b)) := rfl

lemma sort_methods_eq_mergeSort_key (methods : List MethodInfo) :
    sort_methods methods =
      methods.mergeSort (fun a b => decide (MethodInfo.name a ≤ MethodInfo.name b)) := rfl

/-! ### Characterization of the emitted parameter groups. -/

/-- The `params` argument contributed to the required group (empty when the
definition declares no parameters shape or the shape is optional). -/
def params_args_required (mi : MethodInfo) : List String :=
  match mi.definition.parameters with
  | some p =>
      if is_optional_arg p then []
      else [namespace_method_signature_arg "params" mi.name get_params_model_name false false]
  | none => []

/-- The `params` argument contributed to the optional group. -/
def params_args_optional (mi : MethodInfo) : List String :=
  match mi.definition.parameters with
  | some p =>
      if is_optional_arg p then
        [namespace_method_signature_arg "params" mi.name get_params_model_name true false]
      else []
  | none => []

/-- The `data` argument's contribution to the required/optional groups, or
the malformed-schema failure: for a schema that is present but not a
structured object the computation fails with the attribute error raised by
the `required` lookup that precedes the `isinstance` test (the source's
`ValueError` raise is unreachable there). -/
def data_args_result (mi : MethodInfo) : Except String (List String × List String) :=
  match mi.definition.type, mi.definition.input with
  | LexDefinitionType.procedure, some inp =>
      match inp.schema with
      | some (LexSchema.object obj) =>
          if is_optional_arg obj then
            Except.ok ([], [namespace_method_signature_arg "data" mi.name
              get_data_model_name true false])
          else
            Except.ok ([namespace_method_signature_arg "data" mi.name
              get_data_model_name false false], [])
      | some (LexSchema.ref _) =>
          Except.error "AttributeError: ref shape has no attribute required"
      | none =>
          Except.ok ([namespace_method_signature_arg "data" mi.name
            get_data_model_name false true], [])
  | _, _ => Except.ok ([], [])

/-- The `data` argument of the required group (empty on error). -/
def data_args_required (mi : MethodInfo) : List String :=
  match data_args_result mi with
  | Except.ok dr => dr.1
  | Except.error _ => []

/-- The `data` argument of the optional group (empty on error). -/
def data_args_optional (mi : MethodInfo) : List String :=
  match data_args_result mi with
  | Except.ok dr => dr.2
  | Except.error _ => []

/-- The two accumulated groups of `_get_namespace_method_signature_args` are
`self` followed by the required `params` and `data` contributions, and the
optional `params` and `data` contributions, in that order; a malformed input
schema yields the error instead. -/
lemma signature_args_lists_characterization (mi : MethodInfo) :
    namespace_method_signature_args_lists mi =
      match data_args_result mi with
      | Except.ok dr =>
          Except.ok (("self" :: params_args_required mi ++ dr.1),
            params_args_optional mi ++ dr.2)
      | Except.error e => Except.error e := by
  obtain ⟨name, nsid, ty, params, input, output⟩ := mi
  simp only [namespace_method_signature_args_lists, data_args_result,
    params_args_required, params_args_optional, is_optional_arg_schema]
  cases ty with
  | procedure =>
      cases input with
      | none =>
          cases params with
          | none => rfl
          | some p => by_cases hp : is_optional_arg p <;> simp [hp]
      | some inp =>
          obtain ⟨schema⟩ := inp
          cases schema with
          | none =>
              cases params with
              | none => rfl
              | some p => by_cases hp : is_optional_arg p <;> simp [hp]
          | some s =>
              cases s with
              | ref t =>
                  cases params with
                  | none => rfl
                  | some p => by_cases hp : is_optional_arg p <;> simp [hp]
              | object obj =>
                  cases params with
                  | none => by_cases h : is_optional_arg obj <;> simp [h]
                  | some p =>
                      by_cases hp : is_optional_arg p <;>
                        by_cases h : is_optional_arg obj <;> simp [hp, h]
  | query =>
      cases params with
      | none => rfl
      | some p => by_cases hp : is_optional_arg p <;> simp [hp]
  | record =>
      cases params with
      | none => rfl
      | some p => by_cases hp : is_optional_arg p <;> simp [hp]
  | other =>
      cases params with
      | none => rfl
      | some p => by_cases hp : is_optional_arg p <;> simp [hp]

/-! ### Error propagation of the malformed-schema error. -/

lemma signature_args_lists_error_of_bad (mi : MethodInfo)
    (h : method_has_bad_input_schema mi) :
    namespace_method_signature_args_lists mi =
      Except.error "AttributeError: ref shape has no attribute required" := by
  obtain ⟨hty, inp, target, hinp, hschema⟩ := h
  rw [signature_args_lists_characterization]
  have hd : data_args_result mi =
      Except.error "AttributeError: ref shape has no attribute required" := by
    simp [data_args_result, hty, hinp, hschema]
  rw [hd]

lemma method_lines_error_of_bad (mi : MethodInfo) (sync : Bool)
    (h : method_has_bad_input_schema mi) :
    namespace_method_lines mi sync =
      Except.error "AttributeError: ref shape has no attribute required" := by
  simp [namespace_method_lines, namespace_method_signature, namespace_method_signature_args,
    signature_args_lists_error_of_bad mi h]

lemma methods_lines_error_of_mem_bad (l : List MethodInfo) (sync : Bool) (mi : MethodInfo)
    (hm : mi ∈ l) (h : method_has_bad_input_schema mi) :
    ∃ e, namespace_methods_lines l sync = Except.error e := by
  induction l with
  | nil => cases hm
  | cons x rest ih =>
      rcases List.mem_cons.mp hm with hx | hrest
      · subst hx
        exact ⟨"AttributeError: ref shape has no attribute required", by
          simp [namespace_methods_lines, method_lines_error_of_bad mi sync h]⟩
      · cases hlines : namespace_method_lines x sync with
        | error e => exact ⟨e, by simp [namespace_methods_lines, hlines]⟩
        | ok ls =>
            obtain ⟨e, he⟩ := ih hrest
            exact ⟨e, by simp [namespace_methods_lines, hlines, he]⟩

lemma methods_block_error_of_mem_bad (methods : List MethodInfo) (sync : Bool)
    (mi : MethodInfo) (hm : mi ∈ methods) (h : method_has_bad_input_schema mi) :
    ∃ e, namespace_methods_block methods sync = Except.error e := by
  have hm' : mi ∈ sort_methods methods :=
    (List.mergeSort_perm methods _).mem_iff.mpr hm
  obtain ⟨e, he⟩ := methods_lines_error_of_mem_bad (sort_methods methods) sync mi hm' h
  exact ⟨e, by simp [namespace_methods_block, he]⟩

mutual

lemma generate_entry_error_of_bad (node_name : String) (node : NamespaceNode) (sync : Bool)
    (mi : MethodInfo) (hm : mi ∈ node_methods node) (h : method_has_bad_input_schema mi) :
    ∃ e, generate_entry node_name node sync = Except.error e := by
  cases node with
  | dict children =>
      obtain ⟨e, he⟩ := generate_tree_error_of_bad children sync mi
        (by simpa [node_methods] using hm) h
      exact ⟨e, by simp [generate_entry, he]⟩
  | leaf entries =>
      obtain ⟨e, he⟩ := methods_block_error_of_mem_bad (leaf_methods entries) sync mi
        (by simpa [node_methods] using hm) h
      exact ⟨e, by simp [generate_entry, he]⟩

lemma generate_tree_error_of_bad (t : List (String × NamespaceNode)) (sync : Bool)
    (mi : MethodInfo) (hm : mi ∈ tree_methods t) (h : method_has_bad_input_schema mi) :
    ∃ e, generate_tree t sync = Except.error e := by
  cases t with
  | nil => simp [tree_methods] at hm
  | cons head rest =>
      obtain ⟨node_name, node⟩ := head
      rcases List.mem_append.mp (by simpa [tree_methods] using hm) with hnode | hrest
      · obtain ⟨e, he⟩ := generate_entry_error_of_bad node_name node sync mi hnode h
        cases hentry : generate_entry node_name node sync with
        | error e2 => exact ⟨e2, by simp [generate_tree, hentry]⟩
        | ok ls => rw [hentry] at he; cases he
      · cases hentry : generate_entry node_name node sync with
        | error e2 => exact ⟨e2, by simp [generate_tree, hentry]⟩
        | ok ls =>
            obtain ⟨e, he⟩ := generate_tree_error_of_bad rest sync mi hrest h
            exact ⟨e, by simp [generate_tree, hentry, he]⟩

end

/-! ### Claim theorems. -/

/-- C5: a method descriptor with no output shape gets declared return type
`int` (a plain status code); one with an output shape gets the canonical
response-model name, with a `Ref` suffix appended iff the output schema is
itself a named type-reference. -/
theorem return_type_int_or_response_model (mi : MethodInfo) :
    namespace_method_return_type mi =
      match mi.definition.output with
      | none => "int"
      | some out =>
          "models." ++ get_response_model_name mi.name ++
            (match out.schema with
             | some (LexSchema.ref _) => "Ref"
             | _ => "") := by
  obtain ⟨name, nsid, ty, params, input, output⟩ := mi
  cases output with
  | none => rfl
  | some out =>
      obtain ⟨schema⟩ := out
      cases schema with
      | none => rfl
      | some s => cases s <;> rfl

/-- C9: the emission pipeline is deterministic — two runs on equal namespace
trees produce byte-identical blocking and suspending source texts. -/
theorem generation_deterministic (t₁ t₂ : List (String × NamespaceNode)) (h : t₁ = t₂) :
    generate_namespaces_code t₁ = generate_namespaces_code t₂ := by
  rw [h]

/-- Witness for C9 at a concrete tree. -/
theorem generation_deterministic_witness :
    generate_namespaces_code [("com", NamespaceNode.dict [("example", NamespaceNode.leaf [])])] =
      generate_namespaces_code [("com", NamespaceNode.dict [("example", NamespaceNode.leaf [])])] :=
  generation_deterministic
    [("com", NamespaceNode.dict [("example", NamespaceNode.leaf [])])]
    [("com", NamespaceNode.dict [("example", NamespaceNode.leaf [])])] rfl

/-- C3 counterexample: emission at a concrete procedure whose input schema
is a bare type-reference fails with the attribute error raised by the
`required` lookup that the source performs before its `isinstance` test, not
with the `ValueError` of the subsequent `raise` (whose message branch is
`Bad type ...`) — the claimed `ValueError` is unreachable for such schemas. -/
theorem ref_schema_error_is_not_the_valueerror_counterexample :
    namespace_method_signature_args_lists
      ⟨"createReport", "com.atproto.moderation.createReport",
        ⟨LexDefinitionType.procedure, none,
          some ⟨some (LexSchema.ref "com.atproto.moderation.defs")⟩, none⟩⟩ =
      Except.error "AttributeError: ref shape has no attribute required" ∧
    "AttributeError: ref shape has no attribute required" ≠ "Bad type LexRefVariant" :=
  ⟨rfl, by decide⟩

/-- C3 amended: a procedure-kind method whose input schema is present but
not a structured object makes emission fail at that method — with the
attribute error from the required-field lookup preceding the `isinstance`
test (not the source's later `ValueError`, which is unreachable there) —
and the error propagates up the tree walk: both per-convention walks and the
whole generation run abort, so the offending method is never silently
skipped. -/
theorem malformed_input_schema_aborts_generation (t : List (String × NamespaceNode))
    (mi : MethodInfo) (hm : mi ∈ tree_methods t) (h : method_has_bad_input_schema mi) :
    namespace_method_signature_args_lists mi =
      Except.error "AttributeError: ref shape has no attribute required" ∧
    (∃ e, generate_tree t true = Except.error e) ∧
    (∃ e, generate_tree t false = Except.error e) ∧
    (∃ e, generate_namespaces_code t = Except.error e) := by
  obtain ⟨e₁, he₁⟩ := generate_tree_error_of_bad t true mi hm h
  obtain ⟨e₂, he₂⟩ := generate_tree_error_of_bad t false mi hm h
  exact ⟨signature_args_lists_error_of_bad mi h, ⟨e₁, he₁⟩, ⟨e₂, he₂⟩,
    ⟨e₁, by simp [generate_namespaces_code, he₁]⟩⟩

/-- Witness for the amended C3: a concrete tree holding one procedure whose
input schema is a bare type-reference aborts the whole generation run. -/
theorem malformed_input_schema_aborts_generation_witness :
    ∃ e, generate_namespaces_code
      [("com", NamespaceNode.dict [("moderation", NamespaceNode.leaf
        [NodeInfo.method ⟨"createReport", "com.atproto.moderation.createReport",
          ⟨LexDefinitionType.procedure, none,
            some ⟨some (LexSchema.ref "com.atproto.moderation.defs")⟩, none⟩⟩])])]
      = Except.error e :=
  (malformed_input_schema_aborts_generation
    [("com", NamespaceNode.dict [("moderation", NamespaceNode.leaf
      [NodeInfo.method ⟨"createReport", "com.atproto.moderation.createReport",
        ⟨LexDefinitionType.procedure, none,
          some ⟨some (LexSchema.ref "com.atproto.moderation.defs")⟩, none⟩⟩])])]
    ⟨"createReport", "com.atproto.moderation.createReport",
      ⟨LexDefinitionType.procedure, none,
        some ⟨some (LexSchema.ref "com.atproto.moderation.defs")⟩, none⟩⟩
    (by decide)
    ⟨rfl, ⟨some (LexSchema.ref "com.atproto.moderation.defs")⟩,
      "com.atproto.moderation.defs", rfl, rfl⟩).2.2.2

/-- C8: the emitted `__post_init__` assigns exactly the declared
sub-namespace fields — same names, same sorted order, each exactly once, each
set to a fresh instance of the corresponding namespace class bound to the
same client — so no declared field is left as the placeholder. -/
theorem post_init_assigns_every_declared_subnamespace (d : List (String × NamespaceNode))
    (hn : (d.map Prod.fst).Nodup) :
    ∃ names : List String,
      sub_namespaces_block d = join_code (names.map sub_namespace_field_line) ∧
      post_init_method d = join_code ((get_code_intent 1 ++ "def __post_init__(self):")
        :: names.map post_init_assign_line) ∧
      List.Perm names (d.map Prod.fst) ∧
      names.Nodup ∧
      ∀ n ∈ names, post_init_assign_line n =
        get_code_intent 2 ++ "self." ++ n ++ " = " ++ get_namespace_name n
          ++ "(self._client)" := by
  refine ⟨(sort_dict_by_key d).map Prod.fst, ?_, ?_, ?_, ?_, ?_⟩
  · simp only [sub_namespaces_block, List.map_map]
    rfl
  · simp only [post_init_method, List.map_map]
    rfl
  · exact (List.mergeSort_perm d _).map Prod.fst
  · exact (((List.mergeSort_perm d _).map Prod.fst).nodup_iff).mpr hn
  · intro n _
    rfl

/-- Witness for C8 at a concrete two-child node. -/
theorem post_init_assigns_every_declared_subnamespace_witness :
    ∃ names : List String,
      sub_namespaces_block [("bsky", NamespaceNode.leaf []), ("atproto", NamespaceNode.dict [])]
        = join_code (names.map sub_namespace_field_line) ∧
      post_init_method [("bsky", NamespaceNode.leaf []), ("atproto", NamespaceNode.dict [])]
        = join_code ((get_code_intent 1 ++ "def __post_init__(self):")
            :: names.map post_init_assign_line) ∧
      List.Perm names
        ([("bsky", NamespaceNode.leaf []), ("atproto", NamespaceNode.dict [])].map Prod.fst) ∧
      names.Nodup ∧
      ∀ n ∈ names, post_init_assign_line n =
        get_code_intent 2 ++ "self." ++ n ++ " = " ++ get_namespace_name n
          ++ "(self._client)" :=
  post_init_assigns_every_declared_subnamespace
    [("bsky", NamespaceNode.leaf []), ("atproto", NamespaceNode.dict [])] (by decide)

/-- The first-letter-only capitalization the claim describes (rest of the
string unchanged). -/
def capitalize_first_letter_only (s : String) : String :=
  match s.data with
  | [] => ""
  | c :: cs => String.mk (c.toUpper :: cs)

/-- C10 counterexample: the display name is not the local name with only its
first letter capitalized — `aB` yields `AbNamespace`, not `ABNamespace`. -/
theorem namespace_name_lowercases_rest_counterexample :
    get_namespace_name "aB" ≠ capitalize_first_letter_only "aB" ++ NAMESPACE_SUFFIX := by
  decide

/-- C10 amended: the display name uppercases the first character, lowercases
all remaining characters, and appends the fixed suffix (`Namespace`, resp.
`RecordNamespace`). -/
theorem namespace_name_capitalize_spec (c : Char) (cs : List Char) :
    get_namespace_name (String.mk (c :: cs)) =
      String.mk (c.toUpper :: cs.map Char.toLower) ++ "Namespace" ∧
    get_record_name (String.mk (c :: cs)) =
      String.mk (c.toUpper :: cs.map Char.toLower) ++ "RecordNamespace" :=
  ⟨rfl, rfl⟩

/-- C1 counterexample: a procedure declaring both a parameters shape and a
structured input emits a signature containing both `params` and `data`, yet
the body's `if`/`elif` chain passes only `params=` — `data=` is dropped. -/
theorem invoke_kwargs_drop_data_counterexample :
    namespace_method_signature_args
      ⟨"doThing", "com.example.doThing",
        ⟨LexDefinitionType.procedure, some ⟨some ["id"]⟩,
          some ⟨some (LexSchema.object ⟨some ["x"]⟩)⟩, none⟩⟩ =
      Except.ok ("self, params: Union[dict, \x27models.DothingParams\x27], "
        ++ "data: Union[dict, \x27models.DothingData\x27]") ∧
    "data=data" ∉ namespace_method_invoke_args
      ⟨"doThing", "com.example.doThing",
        ⟨LexDefinitionType.procedure, some ⟨some ["id"]⟩,
          some ⟨some (LexSchema.object ⟨some ["x"]⟩)⟩, none⟩⟩ ∧
    namespace_method_invoke_args
      ⟨"doThing", "com.example.doThing",
        ⟨LexDefinitionType.procedure, some ⟨some ["id"]⟩,
          some ⟨some (LexSchema.object ⟨some ["x"]⟩)⟩, none⟩⟩ =
      ["\x27com.example.doThing\x27", "params=params"] := by
  refine ⟨rfl, by decide, rfl⟩

/-- C1 amended: the body invokes the query entry point for query-kind and the
procedure entry point for procedure-kind definitions, passing the quoted
fully-qualified identifier first, followed by exactly one keyword argument
chosen by priority: `params=params` whenever the signature includes `params`,
otherwise `data=data` whenever it includes `data`; when both are present only
`params=` is passed. -/
theorem invoke_call_kind_and_kwargs_spec (mi : MethodInfo) (sync : Bool) :
    namespace_method_invoke_args mi =
      ("\x27" ++ mi.nsid ++ "\x27") ::
        (if mi.definition.parameters.isSome then ["params=params"]
         else if mi.definition.type = LexDefinitionType.procedure
             ∧ mi.definition.input.isSome then ["data=data"]
         else []) ∧
    namespace_method_invoke_name mi =
      (if mi.definition.type = LexDefinitionType.procedure
       then "invoke_procedure" else "invoke_query") ∧
    namespace_method_body mi sync =
      join_code (namespace_method_override_lines mi
        ++ [get_code_intent 2 ++ "response = " ++ (get_sync_async_keywords sync).2
              ++ "self._client." ++ namespace_method_invoke_name mi ++ "("
              ++ String.intercalate ", " (namespace_method_invoke_args mi) ++ ")",
            get_code_intent 2 ++ "return get_response_model(response, "
              ++ namespace_method_return_type mi ++ ")"]) := by
  refine ⟨?_, rfl, ?_⟩
  · obtain ⟨name, nsid, ty, params, input, output⟩ := mi
    cases params <;> cases ty <;> cases input <;>
      first
      | rfl
      | (rename_i inp
         obtain ⟨schema⟩ := inp
         cases schema <;> rfl)
  · simp [namespace_method_body, List.append_assoc]

/-- C4 counterexample: a procedure with an opaque (schema-less) input that
also declares a parameters shape does not get `data=data` passed — the body
passes only `params=params`. -/
theorem alias_data_not_passed_counterexample :
    (⟨"uploadBlob", "com.atproto.repo.uploadBlob",
        ⟨LexDefinitionType.procedure, some ⟨none⟩, some ⟨none⟩, none⟩⟩
      : MethodInfo).definition.input = some ⟨none⟩ ∧
    "data=data" ∉ namespace_method_invoke_args
      ⟨"uploadBlob", "com.atproto.repo.uploadBlob",
        ⟨LexDefinitionType.procedure, some ⟨none⟩, some ⟨none⟩, none⟩⟩ ∧
    namespace_method_invoke_args
      ⟨"uploadBlob", "com.atproto.repo.uploadBlob",
        ⟨LexDefinitionType.procedure, some ⟨none⟩, some ⟨none⟩, none⟩⟩ =
      ["\x27com.atproto.repo.uploadBlob\x27", "params=params"] := by
  refine ⟨rfl, by decide, rfl⟩

/-- C4 amended: a procedure whose input has no schema gets a required `data`
parameter annotated exactly with the canonical data-model alias (no loose
mapping union, no default); the body passes `data=data` with no normalization
step provided the method declares no parameters shape (when a parameters
shape is present, the body passes only `params=params`). -/
theorem alias_data_required_exact_annotation (mi : MethodInfo) (inp : LexXrpcBody)
    (hty : mi.definition.type = LexDefinitionType.procedure)
    (hinp : mi.definition.input = some inp)
    (hschema : inp.schema = none) :
    (∃ req opt, namespace_method_signature_args_lists mi = Except.ok (req, opt) ∧
       req = "self" :: params_args_required mi
         ++ ["data: \x27models." ++ get_data_model_name mi.name ++ "\x27"] ∧
       opt = params_args_optional mi) ∧
    (mi.definition.parameters = none →
       namespace_method_invoke_args mi = ["\x27" ++ mi.nsid ++ "\x27", "data=data"] ∧
       namespace_method_override_lines mi = []) := by
  obtain ⟨name, nsid, ty, params, input, output⟩ := mi
  obtain ⟨schema⟩ := inp
  simp only at hty hinp hschema
  subst hty hschema
  cases hinp
  constructor
  · rw [signature_args_lists_characterization]
    have hd : data_args_result
        ⟨name, nsid, LexDefinitionType.procedure, params, some ⟨none⟩, output⟩ =
        Except.ok (["data: \x27models." ++ get_data_model_name name ++ "\x27"], []) := by
      simp [data_args_result, namespace_method_signature_arg]
    rw [hd]
    exact ⟨_, _, rfl, rfl, by simp⟩
  · intro hparams
    simp only at hparams
    subst hparams
    exact ⟨rfl, rfl⟩

/-- Witness for the amended C4 at a concrete schema-less procedure. -/
theorem alias_data_required_exact_annotation_witness :
    (∃ req opt, namespace_method_signature_args_lists
        ⟨"uploadBlob", "com.atproto.repo.uploadBlob",
          ⟨LexDefinitionType.procedure, none, some ⟨none⟩, none⟩⟩ = Except.ok (req, opt) ∧
       req = "self" :: params_args_required
           ⟨"uploadBlob", "com.atproto.repo.uploadBlob",
             ⟨LexDefinitionType.procedure, none, some ⟨none⟩, none⟩⟩
         ++ ["data: \x27models." ++ get_data_model_name "uploadBlob" ++ "\x27"] ∧
       opt = params_args_optional
           ⟨"uploadBlob", "com.atproto.repo.uploadBlob",
             ⟨LexDefinitionType.procedure, none, some ⟨none⟩, none⟩⟩) ∧
    ((⟨"uploadBlob", "com.atproto.repo.uploadBlob",
        ⟨LexDefinitionType.procedure, none, some ⟨none⟩, none⟩⟩
        : MethodInfo).definition.parameters = none →
       namespace_method_invoke_args
           ⟨"uploadBlob", "com.atproto.repo.uploadBlob",
             ⟨LexDefinitionType.procedure, none, some ⟨none⟩, none⟩⟩ =
         ["\x27" ++ "com.atproto.repo.uploadBlob" ++ "\x27", "data=data"] ∧
       namespace_method_override_lines
           ⟨"uploadBlob", "com.atproto.repo.uploadBlob",
             ⟨LexDefinitionType.procedure, none, some ⟨none⟩, none⟩⟩ = []) :=
  alias_data_required_exact_annotation
    ⟨"uploadBlob", "com.atproto.repo.uploadBlob",
      ⟨LexDefinitionType.procedure, none, some ⟨none⟩, none⟩⟩
    ⟨none⟩ rfl rfl rfl

/-! ### Rendered argument strings. -/

lemma params_optional_arg_eq (n : String) :
    namespace_method_signature_arg "params" n get_params_model_name true false =
    "params: Optional[Union[dict, \x27models." ++ get_params_model_name n
      ++ "\x27]] = None" := by
  simp [namespace_method_signature_arg, String.append_assoc]
  simp [← String.append_assoc]

lemma params_required_arg_eq (n : String) :
    namespace_method_signature_arg "params" n get_params_model_name false false =
    "params: Union[dict, \x27models." ++ get_params_model_name n ++ "\x27]" := by
  simp [namespace_method_signature_arg, String.append_assoc]
  simp [← String.append_assoc]

lemma data_optional_arg_eq (n : String) :
    namespace_method_signature_arg "data" n get_data_model_name true false =
    "data: Optional[Union[dict, \x27models." ++ get_data_model_name n
      ++ "\x27]] = None" := by
  simp [namespace_method_signature_arg, String.append_assoc]
  simp [← String.append_assoc]

lemma data_required_arg_eq (n : String) :
    namespace_method_signature_arg "data" n get_data_model_name false false =
    "data: Union[dict, \x27models." ++ get_data_model_name n ++ "\x27]" := by
  simp [namespace_method_signature_arg, String.append_assoc]
  simp [← String.append_assoc]

lemma data_alias_arg_eq (n : String) :
    namespace_method_signature_arg "data" n get_data_model_name false true =
    "data: \x27models." ++ get_data_model_name n ++ "\x27" := by
  simp [namespace_method_signature_arg, String.append_assoc]

/-- C7: the emitted parameter list starts with `self`, lists all required
parameters before all optional ones, and within each group the `params`
contribution precedes the `data` contribution (the detection order); the
final rendering is the comma-join of the two groups in that order. -/
theorem signature_ordering_self_required_optional (mi : MethodInfo)
    (req opt : List String)
    (h : namespace_method_signature_args_lists mi = Except.ok (req, opt)) :
    req = "self" :: params_args_required mi ++ data_args_required mi ∧
    opt = params_args_optional mi ++ data_args_optional mi ∧
    namespace_method_signature_args mi =
      Except.ok (String.intercalate ", " (req ++ opt)) := by
  rw [signature_args_lists_characterization] at h
  cases hd : data_args_result mi with
  | error e => rw [hd] at h; cases h
  | ok dr =>
      rw [hd] at h
      injection h with hpair
      obtain ⟨h1, h2⟩ := Prod.mk.injEq .. ▸ hpair
      refine ⟨?_, ?_, ?_⟩
      · rw [← h1]; simp [data_args_required, hd]
      · rw [← h2]; simp [data_args_optional, hd]
      · simp only [namespace_method_signature_args,
          signature_args_lists_characterization, hd]
        rw [← h1, ← h2]

/-- Witness for C7 at a concrete query with required parameters. -/
theorem signature_ordering_self_required_optional_witness :
    (["self", "params: Union[dict, \x27models.GetthingParams\x27]"]
        = "self" :: params_args_required
            ⟨"getThing", "com.example.getThing",
              ⟨LexDefinitionType.query, some ⟨some ["id"]⟩, none, some ⟨none⟩⟩⟩
          ++ data_args_required
            ⟨"getThing", "com.example.getThing",
              ⟨LexDefinitionType.query, some ⟨some ["id"]⟩, none, some ⟨none⟩⟩⟩) ∧
    (([] : List String)
        = params_args_optional
            ⟨"getThing", "com.example.getThing",
              ⟨LexDefinitionType.query, some ⟨some ["id"]⟩, none, some ⟨none⟩⟩⟩
          ++ data_args_optional
            ⟨"getThing", "com.example.getThing",
              ⟨LexDefinitionType.query, some ⟨some ["id"]⟩, none, some ⟨none⟩⟩⟩) ∧
    namespace_method_signature_args
        ⟨"getThing", "com.example.getThing",
          ⟨LexDefinitionType.query, some ⟨some ["id"]⟩, none, some ⟨none⟩⟩⟩ =
      Except.ok (String.intercalate ", "
        (["self", "params: Union[dict, \x27models.GetthingParams\x27]"] ++ [])) :=
  signature_ordering_self_required_optional
    ⟨"getThing", "com.example.getThing",
      ⟨LexDefinitionType.query, some ⟨some ["id"]⟩, none, some ⟨none⟩⟩⟩
    ["self", "params: Union[dict, \x27models.GetthingParams\x27]"] [] rfl

/-- C6: a method declaring a parameters shape gets a `params` parameter
typed as the union of a loose mapping and the canonical params model; it is
optional (`Optional[...] = None`) iff the shape's required-field set is
absent or empty, and required (no default) otherwise. -/
theorem params_arg_union_typed_optional_iff (mi : MethodInfo) (p : LexObject)
    (hp : mi.definition.parameters = some p) (req opt : List String)
    (h : namespace_method_signature_args_lists mi = Except.ok (req, opt)) :
    ((p.required = none ∨ p.required = some []) →
       ("params: Optional[Union[dict, \x27models." ++ get_params_model_name mi.name
         ++ "\x27]] = None") ∈ opt) ∧
    (∀ l, p.required = some l → l ≠ [] →
       ("params: Union[dict, \x27models." ++ get_params_model_name mi.name
         ++ "\x27]") ∈ req) := by
  rw [signature_args_lists_characterization] at h
  cases hd : data_args_result mi with
  | error e => rw [hd] at h; cases h
  | ok dr =>
      rw [hd] at h
      injection h with hpair
      obtain ⟨h1, h2⟩ := Prod.mk.injEq .. ▸ hpair
      constructor
      · intro hreq
        have hopt : is_optional_arg p = true := by
          rcases hreq with hn | he
          · simp [is_optional_arg, hn]
          · simp [is_optional_arg, he]
        rw [← h2]
        have : params_args_optional mi =
            ["params: Optional[Union[dict, \x27models." ++ get_params_model_name mi.name
              ++ "\x27]] = None"] := by
          simp [params_args_optional, hp, hopt, params_optional_arg_eq]
        simp [this]
      · intro l hl hne
        have hopt : is_optional_arg p = false := by
          simp [is_optional_arg, hl, List.isEmpty_iff, hne]
        rw [← h1]
        have : params_args_required mi =
            ["params: Union[dict, \x27models." ++ get_params_model_name mi.name
              ++ "\x27]"] := by
          simp [params_args_required, hp, hopt, params_required_arg_eq]
        simp [this]

/-- Witness for C6: one optional-params query and one required-params query,
with the `params` argument landing in the optional resp. required group. -/
theorem params_arg_union_typed_optional_iff_witness :
    ("params: Optional[Union[dict, \x27models.ListthingsParams\x27]] = None")
      ∈ ["params: Optional[Union[dict, \x27models.ListthingsParams\x27]] = None"] ∧
    ("params: Union[dict, \x27models.GetthingParams\x27]")
      ∈ ["self", "params: Union[dict, \x27models.GetthingParams\x27]"] := by
  constructor
  · exact (params_arg_union_typed_optional_iff
      ⟨"listThings", "com.example.listThings",
        ⟨LexDefinitionType.query, some ⟨none⟩, none, none⟩⟩
      ⟨none⟩ rfl ["self"]
      ["params: Optional[Union[dict, \x27models.ListthingsParams\x27]] = None"]
      rfl).1 (Or.inl rfl)
  · exact (params_arg_union_typed_optional_iff
      ⟨"getThing", "com.example.getThing",
        ⟨LexDefinitionType.query, some ⟨some ["id"]⟩, none, some ⟨none⟩⟩⟩
      ⟨some ["id"]⟩ rfl
      ["self", "params: Union[dict, \x27models.GetthingParams\x27]"] []
      rfl).2 ["id"] rfl (by decide)

/-- C2 counterexample: the whole emitted output is not invariant under a
permutation of the builder's child ordering — swapping two sibling children
reorders the emitted class definitions. -/
theorem generated_output_not_insertion_order_invariant :
    List.Perm [("a", NamespaceNode.leaf []), ("b", NamespaceNode.leaf [])]
      [("b", NamespaceNode.leaf []), ("a", NamespaceNode.leaf [])] ∧
    (generate_tree [("a", NamespaceNode.leaf []), ("b", NamespaceNode.leaf [])] true).toOption
      ≠ (generate_tree [("b", NamespaceNode.leaf []), ("a", NamespaceNode.leaf [])] true).toOption :=
  ⟨List.Perm.swap ("b", NamespaceNode.leaf []) ("a", NamespaceNode.leaf []) [],
    by decide⟩

/-- C2 amended: within one namespace node, the emitted sub-namespace field
declarations, the `__post_init__` assignments and the emitted method
definitions are produced in strictly ascending name order, and these blocks
are invariant under any permutation of the builder's child/leaf ordering
(the surrounding class-definition order, by contrast, follows insertion
order). -/
theorem emitted_blocks_sorted_and_permutation_invariant
    (c₁ c₂ : List (String × NamespaceNode)) (m₁ m₂ : List MethodInfo) (sync : Bool)
    (hcp : List.Perm c₁ c₂) (hcn : (c₁.map Prod.fst).Nodup)
    (hmp : List.Perm m₁ m₂) (hmn : (m₁.map MethodInfo.name).Nodup) :
    sub_namespaces_block c₁ = sub_namespaces_block c₂ ∧
    post_init_method c₁ = post_init_method c₂ ∧
    namespace_methods_block m₁ sync = namespace_methods_block m₂ sync ∧
    ((sort_dict_by_key c₁).map Prod.fst).Pairwise (fun a b => a < b) ∧
    ((sort_methods m₁).map MethodInfo.name).Pairwise (fun a b => a < b) := by
  have hsort : sort_dict_by_key c₁ = sort_dict_by_key c₂ := by
    rw [sort_dict_by_key_eq_mergeSort_key, sort_dict_by_key_eq_mergeSort_key]
    exact mergeSort_key_eq_of_perm Prod.fst hcp hcn
  have hmsort : sort_methods m₁ = sort_methods m₂ := by
    rw [sort_methods_eq_mergeSort_key, sort_methods_eq_mergeSort_key]
    exact mergeSort_key_eq_of_perm MethodInfo.name hmp hmn
  refine ⟨?_, ?_, ?_, ?_, ?_⟩
  · simp [sub_namespaces_block, hsort]
  · simp [post_init_method, hsort]
  · simp [namespace_methods_block, hmsort]
  · exact List.pairwise_map.mpr (mergeSort_key_pairwise_lt Prod.fst c₁ hcn)
  · exact List.pairwise_map.mpr (mergeSort_key_pairwise_lt MethodInfo.name m₁ hmn)

/-- Witness for the amended C2 at concrete permuted children and methods. -/
theorem emitted_blocks_sorted_and_permutation_invariant_witness :
    sub_namespaces_block [("b", NamespaceNode.leaf []), ("a", NamespaceNode.leaf [])]
      = sub_namespaces_block [("a", NamespaceNode.leaf []), ("b", NamespaceNode.leaf [])] ∧
    post_init_method [("b", NamespaceNode.leaf []), ("a", NamespaceNode.leaf [])]
      = post_init_method [("a", NamespaceNode.leaf []), ("b", NamespaceNode.leaf [])] ∧
    namespace_methods_block
        [⟨"listThings", "com.example.listThings",
            ⟨LexDefinitionType.query, none, none, none⟩⟩,
          ⟨"getThing", "com.example.getThing",
            ⟨LexDefinitionType.query, none, none, none⟩⟩] true
      = namespace_methods_block
        [⟨"getThing", "com.example.getThing",
            ⟨LexDefinitionType.query, none, none, none⟩⟩,
          ⟨"listThings", "com.example.listThings",
            ⟨LexDefinitionType.query, none, none, none⟩⟩] true ∧
    ((sort_dict_by_key [("b", NamespaceNode.leaf []), ("a", NamespaceNode.leaf [])]).map
        Prod.fst).Pairwise (fun a b => a < b) ∧
    ((sort_methods
        [⟨"listThings", "com.example.listThings",
            ⟨LexDefinitionType.query, none, none, none⟩⟩,
          ⟨"getThing", "com.example.getThing",
            ⟨LexDefinitionType.query, none, none, none⟩⟩]).map
        MethodInfo.name).Pairwise (fun a b => a < b) :=
  emitted_blocks_sorted_and_permutation_invariant
    [("b", NamespaceNode.leaf []), ("a", NamespaceNode.leaf [])]
    [("a", NamespaceNode.leaf []), ("b", NamespaceNode.leaf [])]
    [⟨"listThings", "com.example.listThings",
        ⟨LexDefinitionType.query, none, none, none⟩⟩,
      ⟨"getThing", "com.example.getThing",
        ⟨LexDefinitionType.query, none, none, none⟩⟩]
    [⟨"getThing", "com.example.getThing",
        ⟨LexDefinitionType.query, none, none, none⟩⟩,
      ⟨"listThings", "com.example.listThings",
        ⟨LexDefinitionType.query, none, none, none⟩⟩]
    true
    (List.Perm.swap ("a", NamespaceNode.leaf []) ("b", NamespaceNode.leaf []) [])
    (by decide)
    (List.Perm.swap
      (⟨"getThing", "com.example.getThing",
        ⟨LexDefinitionType.query, none, none, none⟩⟩ : MethodInfo)
      (⟨"listThings", "com.example.listThings",
        ⟨LexDefinitionType.query, none, none, none⟩⟩ : MethodInfo)
      [])
    (by decide)
